import Mathlib

/-!
Verification of the fitness-tracker calculator (`homework.py`): workout data
model, per-discipline distance / mean-speed / calorie formulas, report
formatting, and the dispatch driver.  Numbers are modelled as exact rationals;
Python exceptions are modelled by the `Fault` type and `Except`, and printed
output by lists of strings.
-/

/-- Python exception kinds that the program can raise or catch. -/
inductive Fault where
  | notImplementedError
  | keyError
  | typeError
  | attributeError
  deriving DecidableEq, Repr

/-- `InfoMessage` dataclass: an informational message about a workout. -/
structure InfoMessage where
  training_type : String
  duration : ℚ
  distance : ℚ
  speed : ℚ
  calories : ℚ
  deriving DecidableEq, Repr

/-- Base class `Training`: fields `action`, `duration`, `weight`. -/
structure Training where
  action : ℚ
  duration : ℚ
  weight : ℚ
  deriving DecidableEq, Repr

/-- `Training.LEN_STEP = 0.65`, length of one step. -/
def Training.LEN_STEP : ℚ := 0.65

/-- `Training.M_IN_KM = 1000`, metres per kilometre. -/
def M_IN_KM : ℚ := 1000

/-- `Training.HOURS_TO_MIN = 60`, minutes per hour. -/
def HOURS_TO_MIN : ℚ := 60

/-- `Training.get_distance`: `action * LEN_STEP / M_IN_KM`. -/
def Training.get_distance (t : Training) : ℚ :=
  t.action * Training.LEN_STEP / M_IN_KM

/-- `Training.get_mean_speed`: `get_distance() / duration`. -/
def Training.get_mean_speed (t : Training) : ℚ :=
  t.get_distance / t.duration

/-- `Training.get_spent_calories`: the base class raises `NotImplementedError`. -/
def Training.get_spent_calories (_ : Training) : Except Fault ℚ :=
  Except.error Fault.notImplementedError

/-- Subclass `Running` of `Training`: inherits the three base fields. -/
structure Running where
  action : ℚ
  duration : ℚ
  weight : ℚ
  deriving DecidableEq, Repr

/-- `Running.COEFF_CALORIE_RUN_1 = 18`. -/
def Running.COEFF_CALORIE_RUN_1 : ℚ := 18

/-- `Running.COEFF_CALORIE_RUN_2 = 20`. -/
def Running.COEFF_CALORIE_RUN_2 : ℚ := 20

/-- `Running.get_distance`, inherited from `Training` with `LEN_STEP = 0.65`. -/
def Running.get_distance (r : Running) : ℚ :=
  r.action * Training.LEN_STEP / M_IN_KM

/-- `Running.get_mean_speed`, inherited from `Training`. -/
def Running.get_mean_speed (r : Running) : ℚ :=
  r.get_distance / r.duration

/-- `Running.get_spent_calories`:
`(18 * mean_speed - 20) * weight / M_IN_KM * duration * HOURS_TO_MIN`. -/
def Running.get_spent_calories (r : Running) : ℚ :=
  (Running.COEFF_CALORIE_RUN_1 * r.get_mean_speed
    - Running.COEFF_CALORIE_RUN_2) * r.weight / M_IN_KM
    * r.duration * HOURS_TO_MIN

/-- Subclass `SportsWalking` of `Training`: adds the `height` field. -/
structure SportsWalking where
  action : ℚ
  duration : ℚ
  weight : ℚ
  height : ℚ
  deriving DecidableEq, Repr

/-- `SportsWalking.COEFF_CALORIE_WLK_1 = 0.035`. -/
def SportsWalking.COEFF_CALORIE_WLK_1 : ℚ := 0.035

/-- `SportsWalking.COEFF_CALORIE_WLK_2 = 0.029`. -/
def SportsWalking.COEFF_CALORIE_WLK_2 : ℚ := 0.029

/-- `SportsWalking.get_distance`, inherited from `Training` with `LEN_STEP = 0.65`. -/
def SportsWalking.get_distance (w : SportsWalking) : ℚ :=
  w.action * Training.LEN_STEP / M_IN_KM

/-- `SportsWalking.get_mean_speed`, inherited from `Training`. -/
def SportsWalking.get_mean_speed (w : SportsWalking) : ℚ :=
  w.get_distance / w.duration

/-- Python float floor division `a // b`: the floor of the true quotient
(floor, not truncation toward zero). -/
def floorDiv (a b : ℚ) : ℚ :=
  ((Int.floor (a / b) : ℤ) : ℚ)

/-- `SportsWalking.get_spent_calories`:
`(0.035 * weight + (mean_speed ** 2 // height) * 0.029 * weight) * duration * HOURS_TO_MIN`. -/
def SportsWalking.get_spent_calories (w : SportsWalking) : ℚ :=
  (SportsWalking.COEFF_CALORIE_WLK_1 * w.weight
    + floorDiv (w.get_mean_speed ^ 2) w.height
    * SportsWalking.COEFF_CALORIE_WLK_2 * w.weight) * w.duration
    * HOURS_TO_MIN

/-- Subclass `Swimming` of `Training`: adds `length_pool` and `count_pool`. -/
structure Swimming where
  action : ℚ
  duration : ℚ
  weight : ℚ
  length_pool : ℚ
  count_pool : ℚ
  deriving DecidableEq, Repr

/-- `Swimming.LEN_STEP = 1.38`, length of one stroke (overrides the base 0.65). -/
def Swimming.LEN_STEP : ℚ := 1.38

/-- `Swimming.COEFF_CALORIE_SWM_1 = 1.1`. -/
def Swimming.COEFF_CALORIE_SWM_1 : ℚ := 1.1

/-- `Swimming.COEFF_CALORIE_SWM_2 = 2`. -/
def Swimming.COEFF_CALORIE_SWM_2 : ℚ := 2

/-- `Swimming.get_distance`, inherited from `Training` but resolving the class
attribute `LEN_STEP` to the overridden `Swimming.LEN_STEP = 1.38`. -/
def Swimming.get_distance (s : Swimming) : ℚ :=
  s.action * Swimming.LEN_STEP / M_IN_KM

/-- `Swimming.get_mean_speed` (overrides the base formula):
`length_pool * count_pool / M_IN_KM / duration`. -/
def Swimming.get_mean_speed (s : Swimming) : ℚ :=
  s.length_pool * s.count_pool / M_IN_KM / s.duration

/-- `Swimming.get_spent_calories`:
`(mean_speed + 1.1) * 2 * weight`. -/
def Swimming.get_spent_calories (s : Swimming) : ℚ :=
  (s.get_mean_speed + Swimming.COEFF_CALORIE_SWM_1)
    * Swimming.COEFF_CALORIE_SWM_2 * s.weight

/-! ### Fixed-point formatting (Python `:.3f`) -/

/-- Round a rational to the nearest integer, ties to even (the rounding used
by Python fixed-point formatting). -/
def roundHalfEven (q : ℚ) : ℤ :=
  if q - (Int.floor q : ℚ) < 1 / 2 then Int.floor q
  else if (1 : ℚ) / 2 < q - (Int.floor q : ℚ) then Int.floor q + 1
  else if Int.floor q % 2 = 0 then Int.floor q else Int.floor q + 1

/-- The three decimal digits of `n % 1000`, zero-padded to width 3. -/
def pad3 (n : ℕ) : String :=
  String.mk [Nat.digitChar (n / 100 % 10), Nat.digitChar (n / 10 % 10),
    Nat.digitChar (n % 10)]

/-- Render `n` thousandths in fixed-point: integer part, a dot, three digits. -/
def fmt3Nat (n : ℕ) : String :=
  toString (n / 1000) ++ "." ++ pad3 (n % 1000)

/-- Python `f-string` fixed-point formatting `{q:.3f}`: three digits after the
decimal point, rounding half to even. -/
def fmt3 (q : ℚ) : String :=
  if q < 0 then "-" ++ fmt3Nat (roundHalfEven (1000 * (-q))).toNat
  else fmt3Nat (roundHalfEven (1000 * q)).toNat

/-- `InfoMessage.get_message`: the report line template (field labels are the
Russian strings of the source). -/
def InfoMessage.get_message (m : InfoMessage) : String :=
  "Тип тренировки: " ++ m.training_type
    ++ "; Длительность: " ++ fmt3 m.duration
    ++ " ч.; Дистанция: " ++ fmt3 m.distance
    ++ " км; Ср. скорость: " ++ fmt3 m.speed
    ++ " км/ч; Потрачено ккал: " ++ fmt3 m.calories ++ "."

/-! ### `show_training_info`, dispatch and driver -/

/-- `Running.show_training_info`: inherited; `type(self).__name__` is `"Running"`. -/
def Running.show_training_info (r : Running) : InfoMessage :=
  { training_type := "Running", duration := r.duration,
    distance := r.get_distance, speed := r.get_mean_speed,
    calories := r.get_spent_calories }

/-- `SportsWalking.show_training_info`: inherited; the name is `"SportsWalking"`. -/
def SportsWalking.show_training_info (w : SportsWalking) : InfoMessage :=
  { training_type := "SportsWalking", duration := w.duration,
    distance := w.get_distance, speed := w.get_mean_speed,
    calories := w.get_spent_calories }

/-- `Swimming.show_training_info`: inherited; the name is `"Swimming"`. -/
def Swimming.show_training_info (s : Swimming) : InfoMessage :=
  { training_type := "Swimming", duration := s.duration,
    distance := s.get_distance, speed := s.get_mean_speed,
    calories := s.get_spent_calories }

/-- A constructed workout instance: one of the three concrete variants. -/
inductive Workout where
  | swm (s : Swimming)
  | run (r : Running)
  | wlk (w : SportsWalking)
  deriving DecidableEq, Repr

/-- Dynamic dispatch of `show_training_info` on a concrete workout instance. -/
def Workout.show_training_info : Workout → InfoMessage
  | .swm s => s.show_training_info
  | .run r => r.show_training_info
  | .wlk w => w.show_training_info

/-- `Swimming(*data)`: positional construction; a wrong argument count raises
`TypeError`. -/
def mkSwimming : List ℚ → Except Fault Swimming
  | [a, d, w, lp, cp] => Except.ok ⟨a, d, w, lp, cp⟩
  | _ => Except.error Fault.typeError

/-- `Running(*data)`: positional construction; a wrong argument count raises
`TypeError`. -/
def mkRunning : List ℚ → Except Fault Running
  | [a, d, w] => Except.ok ⟨a, d, w⟩
  | _ => Except.error Fault.typeError

/-- `SportsWalking(*data)`: positional construction; a wrong argument count
raises `TypeError`. -/
def mkSportsWalking : List ℚ → Except Fault SportsWalking
  | [a, d, w, h] => Except.ok ⟨a, d, w, h⟩
  | _ => Except.error Fault.typeError

/-- The diagnostic printed by `read_package` when the workout code is unknown. -/
def keyErrorMessage (workout_type : String) : String :=
  "KeyError: Тип тренировки " ++ workout_type ++ " не может быть обработан."

/-- `read_package`: look the code up in `{SWM, RUN, WLK}` and construct the
variant from the positional data.  A `KeyError` (unknown code) is caught: the
diagnostic is printed and `None` is returned.  A constructor `TypeError`
propagates.  The result pairs the returned value (or the propagating fault)
with the list of printed lines. -/
def read_package (workout_type : String) (data : List ℚ) :
    Except Fault (Option Workout) × List String :=
  if workout_type = "SWM" then
    match mkSwimming data with
    | Except.ok s => (Except.ok (some (Workout.swm s)), [])
    | Except.error e => (Except.error e, [])
  else if workout_type = "RUN" then
    match mkRunning data with
    | Except.ok r => (Except.ok (some (Workout.run r)), [])
    | Except.error e => (Except.error e, [])
  else if workout_type = "WLK" then
    match mkSportsWalking data with
    | Except.ok w => (Except.ok (some (Workout.wlk w)), [])
    | Except.error e => (Except.error e, [])
  else
    (Except.ok none, [keyErrorMessage workout_type])

/-- `main`: show the training info and print its message; the
`AttributeError` raised when `training` is `None` is caught and nothing is
printed.  Returns the printed lines. -/
def homework.main : Option Workout → List String
  | none => []
  | some t => [t.show_training_info.get_message]

/-- The driver loop over `packages`: dispatch each `(workout_type, data)` pair
and run `main` on the result; a fault propagating out of `read_package` aborts
the batch. -/
def runPackages : List (String × List ℚ) → Except Fault (List String)
  | [] => Except.ok []
  | (wt, d) :: rest =>
    match read_package wt d with
    | (Except.ok t, out) =>
      match runPackages rest with
      | Except.ok outs => Except.ok (out ++ homework.main t ++ outs)
      | Except.error e => Except.error e
    | (Except.error e, _) => Except.error e

/-! ### Claims about the calorie / distance / speed formulas -/

/-- C1 (counterexample): on the demo input `[15000, 1, 75]` the Running
calories are not 701.25 as the claim states. -/
theorem running_demo_not_701_25 :
    Running.get_spent_calories ⟨15000, 1, 75⟩ ≠ 70125 / 100 := by
  norm_num [Running.get_spent_calories, Running.get_mean_speed,
    Running.get_distance, Running.COEFF_CALORIE_RUN_1,
    Running.COEFF_CALORIE_RUN_2, Training.LEN_STEP, M_IN_KM, HOURS_TO_MIN]

/-- C1 (amended): for every Running workout the calories equal
`(18 * mean_speed - 20) * weight / 1000 * duration * 60` with the base mean
speed `(action * 0.65 / 1000) / duration`; on the demo input `[15000, 1, 75]`
the calories are 699.75 (not 701.25). -/
theorem running_calories_formula :
    (∀ r : Running, r.get_spent_calories =
      (18 * ((r.action * (65 / 100) / 1000) / r.duration) - 20) * r.weight / 1000
        * r.duration * 60) ∧
    Running.get_spent_calories ⟨15000, 1, 75⟩ = 69975 / 100 := by
  constructor
  · intro r
    simp only [Running.get_spent_calories, Running.get_mean_speed,
      Running.get_distance, Running.COEFF_CALORIE_RUN_1,
      Running.COEFF_CALORIE_RUN_2, Training.LEN_STEP, M_IN_KM, HOURS_TO_MIN]
    norm_num
  · norm_num [Running.get_spent_calories, Running.get_mean_speed,
      Running.get_distance, Running.COEFF_CALORIE_RUN_1,
      Running.COEFF_CALORIE_RUN_2, Training.LEN_STEP, M_IN_KM, HOURS_TO_MIN]

/-- C2: for every Walking workout the calories equal
`(0.035 * weight + floor((mean_speed ^ 2) / height) * 0.029 * weight) * duration * 60`
with the base mean speed, the inner division being mathematical floor
division; on the demo input `[9000, 1, 75, 180]` the calories are 157.5. -/
theorem walking_calories_formula :
    (∀ w : SportsWalking, w.get_spent_calories =
      ((35 / 1000) * w.weight
        + ((Int.floor ((((w.action * (65 / 100) / 1000) / w.duration) ^ 2)
            / w.height) : ℤ) : ℚ) * (29 / 1000) * w.weight)
        * w.duration * 60) ∧
    SportsWalking.get_spent_calories ⟨9000, 1, 75, 180⟩ = 315 / 2 := by
  constructor
  · intro w
    simp only [SportsWalking.get_spent_calories, SportsWalking.get_mean_speed,
      SportsWalking.get_distance, SportsWalking.COEFF_CALORIE_WLK_1,
      SportsWalking.COEFF_CALORIE_WLK_2, floorDiv, Training.LEN_STEP,
      M_IN_KM, HOURS_TO_MIN]
    norm_num
  · norm_num [SportsWalking.get_spent_calories, SportsWalking.get_mean_speed,
      SportsWalking.get_distance, SportsWalking.COEFF_CALORIE_WLK_1,
      SportsWalking.COEFF_CALORIE_WLK_2, floorDiv, Training.LEN_STEP,
      M_IN_KM, HOURS_TO_MIN]

/-- C3: every Swimming workout's mean speed equals
`length_pool * count_pool / 1000 / duration`, so it depends only on those
three fields: two Swimming workouts agreeing on them have equal mean speeds
whatever their stroke counts and weights. -/
theorem swimming_mean_speed_pool_only :
    (∀ s : Swimming,
      s.get_mean_speed = s.length_pool * s.count_pool / 1000 / s.duration) ∧
    (∀ lp cp d a₁ w₁ a₂ w₂ : ℚ,
      Swimming.get_mean_speed ⟨a₁, d, w₁, lp, cp⟩ =
        Swimming.get_mean_speed ⟨a₂, d, w₂, lp, cp⟩) := by
  constructor
  · intro s
    simp only [Swimming.get_mean_speed, M_IN_KM]
  · intro lp cp d a₁ w₁ a₂ w₂
    simp only [Swimming.get_mean_speed]

/-- C4: every Swimming workout's calories equal
`(mean_speed + 1.1) * 2 * weight` with the overridden pool-based mean speed;
on the demo input `[720, 1, 80, 25, 40]` the mean speed is 1.0 and the
calories are 336.0. -/
theorem swimming_calories_formula :
    (∀ s : Swimming, s.get_spent_calories =
      (s.length_pool * s.count_pool / 1000 / s.duration + 11 / 10) * 2 * s.weight) ∧
    Swimming.get_mean_speed ⟨720, 1, 80, 25, 40⟩ = 1 ∧
    Swimming.get_spent_calories ⟨720, 1, 80, 25, 40⟩ = 336 := by
  refine ⟨fun s => ?_,
    by norm_num [Swimming.get_mean_speed, M_IN_KM],
    by norm_num [Swimming.get_spent_calories, Swimming.get_mean_speed,
      Swimming.COEFF_CALORIE_SWM_1, Swimming.COEFF_CALORIE_SWM_2, M_IN_KM]⟩
  simp only [Swimming.get_spent_calories, Swimming.get_mean_speed,
    Swimming.COEFF_CALORIE_SWM_1, Swimming.COEFF_CALORIE_SWM_2, M_IN_KM]
  norm_num

/-- C5 (counterexample): the distance is not the unit count times the step
constant 0.65: on the demo Running input the distance is 9.75 km, while
`15000 * 0.65 = 9750`. -/
theorem distance_not_count_times_step :
    Running.get_distance ⟨15000, 1, 75⟩ ≠ 15000 * (65 / 100 : ℚ) := by
  norm_num [Running.get_distance, Training.LEN_STEP, M_IN_KM]

/-- C5 (amended): for every variant the distance in km is the unit count times
the per-variant step-length constant (0.65 for Running and Walking, 1.38 for
Swimming) divided by 1000 (the constant is metres per unit, not km):
`distance_km = unit_count * step_length_m / 1000` exactly. -/
theorem distance_formula_amended :
    (∀ r : Running, r.get_distance = r.action * (65 / 100) / 1000) ∧
    (∀ w : SportsWalking, w.get_distance = w.action * (65 / 100) / 1000) ∧
    (∀ s : Swimming, s.get_distance = s.action * (138 / 100) / 1000) := by
  refine ⟨fun r => ?_, fun w => ?_, fun s => ?_⟩
  · simp only [Running.get_distance, Training.LEN_STEP, M_IN_KM]
    norm_num
  · simp only [SportsWalking.get_distance, Training.LEN_STEP, M_IN_KM]
    norm_num
  · simp only [Swimming.get_distance, Swimming.LEN_STEP, M_IN_KM]
    norm_num

/-- C8: invoking the calorie computation on the abstract base `Training`
always yields the distinct `NotImplementedError` fault — never a result and
never any of the other fault kinds. -/
theorem base_calories_not_implemented :
    (∀ t : Training,
      t.get_spent_calories = Except.error Fault.notImplementedError ∧
      ∀ q : ℚ, t.get_spent_calories ≠ Except.ok q) ∧
    Fault.notImplementedError ≠ Fault.keyError ∧
    Fault.notImplementedError ≠ Fault.typeError ∧
    Fault.notImplementedError ≠ Fault.attributeError := by
  refine ⟨fun t => ⟨rfl, fun q h => ?_⟩, by decide, by decide, by decide⟩
  exact Except.noConfusion h

/-- C10: the Swimming distance is still stroke-based
(`action * 1.38 / 1000`) while the mean speed is pool-based, and on the demo
input `[720, 1, 80, 25, 40]` the two disagree: the mean speed (1.0) differs
from distance / duration (0.9936). -/
theorem swimming_speed_distance_mismatch :
    (∀ s : Swimming, s.get_distance = s.action * (138 / 100) / 1000) ∧
    Swimming.get_mean_speed ⟨720, 1, 80, 25, 40⟩ ≠
      Swimming.get_distance ⟨720, 1, 80, 25, 40⟩
        / (⟨720, 1, 80, 25, 40⟩ : Swimming).duration := by
  constructor
  · intro s
    simp only [Swimming.get_distance, Swimming.LEN_STEP, M_IN_KM]
    norm_num
  · norm_num [Swimming.get_mean_speed, Swimming.get_distance,
      Swimming.LEN_STEP, M_IN_KM]

/-! ### Claims about dispatch, the driver, and invariants -/

/-- C7: for any code outside `{SWM, RUN, WLK}` and any data, dispatch raises no
uncaught fault: `read_package` prints the diagnostic and returns `None`,
`main` emits no report line for `None`, and the driver simply prepends the
diagnostic to the output of the remaining pairs. -/
theorem unknown_code_dispatch :
    ∀ (code : String) (data : List ℚ) (rest : List (String × List ℚ)),
      code ≠ "SWM" → code ≠ "RUN" → code ≠ "WLK" →
      read_package code data = (Except.ok none, [keyErrorMessage code]) ∧
      homework.main none = [] ∧
      runPackages ((code, data) :: rest) =
        (runPackages rest).map (fun outs => keyErrorMessage code :: outs) := by
  intro code data rest h₁ h₂ h₃
  have hrp : read_package code data = (Except.ok none, [keyErrorMessage code]) := by
    simp [read_package, h₁, h₂, h₃]
  refine ⟨hrp, rfl, ?_⟩
  cases hr : runPackages rest with
  | ok outs => simp [runPackages, hrp, hr, homework.main, Except.map]
  | error e => simp [runPackages, hrp, hr, Except.map]

/-- C7 (witness): the unknown code `"XYZ"` with empty data. -/
theorem unknown_code_dispatch_witness :
    read_package "XYZ" [] = (Except.ok none, [keyErrorMessage "XYZ"]) ∧
    homework.main none = [] ∧
    runPackages [("XYZ", [])] =
      (runPackages []).map (fun outs => keyErrorMessage "XYZ" :: outs) :=
  unknown_code_dispatch "XYZ" [] [] (by decide) (by decide) (by decide)

/-- C9: for every variant constructed from non-negative readings with positive
duration, the computed distance and mean speed are non-negative. -/
theorem metrics_nonneg :
    (∀ r : Running, 0 ≤ r.action → 0 < r.duration → 0 ≤ r.weight →
      0 ≤ r.get_distance ∧ 0 ≤ r.get_mean_speed) ∧
    (∀ w : SportsWalking, 0 ≤ w.action → 0 < w.duration → 0 ≤ w.weight →
      0 ≤ w.height → 0 ≤ w.get_distance ∧ 0 ≤ w.get_mean_speed) ∧
    (∀ s : Swimming, 0 ≤ s.action → 0 < s.duration → 0 ≤ s.weight →
      0 ≤ s.length_pool → 0 ≤ s.count_pool →
      0 ≤ s.get_distance ∧ 0 ≤ s.get_mean_speed) := by
  have hstep : (0 : ℚ) ≤ Training.LEN_STEP := by norm_num [Training.LEN_STEP]
  have hswim : (0 : ℚ) ≤ Swimming.LEN_STEP := by norm_num [Swimming.LEN_STEP]
  have hkm : (0 : ℚ) ≤ M_IN_KM := by norm_num [M_IN_KM]
  refine ⟨fun r ha hd _ => ?_, fun w ha hd _ _ => ?_, fun s ha hd _ hlp hcp => ?_⟩
  · have hdist : 0 ≤ r.get_distance :=
      div_nonneg (mul_nonneg ha hstep) hkm
    exact ⟨hdist, div_nonneg hdist hd.le⟩
  · have hdist : 0 ≤ w.get_distance :=
      div_nonneg (mul_nonneg ha hstep) hkm
    exact ⟨hdist, div_nonneg hdist hd.le⟩
  · have hdist : 0 ≤ s.get_distance :=
      div_nonneg (mul_nonneg ha hswim) hkm
    have hspeed : 0 ≤ s.get_mean_speed :=
      div_nonneg (div_nonneg (mul_nonneg hlp hcp) hkm) hd.le
    exact ⟨hdist, hspeed⟩

/-- C9 (witness): the three demo inputs. -/
theorem metrics_nonneg_witness :
    (0 ≤ Running.get_distance ⟨15000, 1, 75⟩ ∧
      0 ≤ Running.get_mean_speed ⟨15000, 1, 75⟩) ∧
    (0 ≤ SportsWalking.get_distance ⟨9000, 1, 75, 180⟩ ∧
      0 ≤ SportsWalking.get_mean_speed ⟨9000, 1, 75, 180⟩) ∧
    (0 ≤ Swimming.get_distance ⟨720, 1, 80, 25, 40⟩ ∧
      0 ≤ Swimming.get_mean_speed ⟨720, 1, 80, 25, 40⟩) :=
  ⟨metrics_nonneg.1 ⟨15000, 1, 75⟩ (by norm_num) (by norm_num) (by norm_num),
   metrics_nonneg.2.1 ⟨9000, 1, 75, 180⟩ (by norm_num) (by norm_num)
     (by norm_num) (by norm_num),
   metrics_nonneg.2.2 ⟨720, 1, 80, 25, 40⟩ (by norm_num) (by norm_num)
     (by norm_num) (by norm_num) (by norm_num)⟩

/-! ### Claim about the report template -/

/-- Number of characters after the last dot of a string (its count of
rendered decimal places). -/
def fracDigits (s : String) : ℕ :=
  (s.data.reverse.takeWhile (fun c => c != '.')).length

/-- Decimal digit characters are never the dot character. -/
theorem digitChar_lt_ten_ne_dot : ∀ e, e < 10 → Nat.digitChar e ≠ '.' := by
  decide

/-- Any string ending in a dot followed by `pad3` has exactly three characters
after its last dot. -/
theorem fracDigits_dot_pad3 (pre : String) (m : ℕ) :
    fracDigits (pre ++ "." ++ pad3 m) = 3 := by
  have h1 : (Nat.digitChar (m / 100 % 10) != '.') = true := by
    simpa using digitChar_lt_ten_ne_dot _ (Nat.mod_lt _ (by norm_num))
  have h2 : (Nat.digitChar (m / 10 % 10) != '.') = true := by
    simpa using digitChar_lt_ten_ne_dot _ (Nat.mod_lt _ (by norm_num))
  have h3 : (Nat.digitChar (m % 10) != '.') = true := by
    simpa using digitChar_lt_ten_ne_dot _ (Nat.mod_lt _ (by norm_num))
  simp [fracDigits, pad3, String.data_append, List.takeWhile_cons, h1, h2, h3]

/-- `fmt3` always renders exactly three digits after the decimal point. -/
theorem fracDigits_fmt3 (q : ℚ) : fracDigits (fmt3 q) = 3 := by
  unfold fmt3 fmt3Nat
  split
  · rw [← String.append_assoc, ← String.append_assoc]
    exact fracDigits_dot_pad3 _ _
  · exact fracDigits_dot_pad3 _ _

/-- Modelled from the spec: the English report template of §4.2
(`"Training type: ...; Duration: ...; ..."`), to be compared with the
template the source actually uses in `InfoMessage.get_message`. -/
def spec_get_message (m : InfoMessage) : String :=
  "Training type: " ++ m.training_type
    ++ "; Duration: " ++ fmt3 m.duration
    ++ " h.; Distance: " ++ fmt3 m.distance
    ++ " km; Avg. speed: " ++ fmt3 m.speed
    ++ " km/h; Calories burned: " ++ fmt3 m.calories ++ "."

/-- C6 (counterexample): on the concrete Running demo result, the produced
report line is not the claimed English template — the source template's field
labels are the Russian strings. -/
theorem report_template_not_english :
    InfoMessage.get_message ⟨"Running", 1, 39 / 4, 39 / 4, 2799 / 4⟩ ≠
      spec_get_message ⟨"Running", 1, 39 / 4, 39 / 4, 2799 / 4⟩ := by
  intro h
  have h2 := congrArg (fun s => s.data.head?) h
  simp [InfoMessage.get_message, spec_get_message, String.data_append] at h2

/-- C6 (amended): every report line follows the fixed template
`"Тип тренировки: {name}; Длительность: {:.3f} ч.; Дистанция: {:.3f} км;
Ср. скорость: {:.3f} км/ч; Потрачено ккал: {:.3f}."` — same field order and
fixed three-decimal formatting as claimed, with Russian field labels instead
of the claimed English ones — and every numeric field rendered by `fmt3` has
exactly three characters after its decimal point. -/
theorem report_template_amended :
    (∀ m : InfoMessage, m.get_message =
      "Тип тренировки: " ++ m.training_type
        ++ "; Длительность: " ++ fmt3 m.duration
        ++ " ч.; Дистанция: " ++ fmt3 m.distance
        ++ " км; Ср. скорость: " ++ fmt3 m.speed
        ++ " км/ч; Потрачено ккал: " ++ fmt3 m.calories ++ ".") ∧
    (∀ q : ℚ, fracDigits (fmt3 q) = 3) :=
  ⟨fun _ => rfl, fracDigits_fmt3⟩
